import Mathlib

/-!
Verification of the remove-liquidity (redemption) instruction of the
marinade-anchor liquidity pool, shallow-embedded from
src/programs/marinade-finance/src/instructions/liq_pool/remove_liquidity.rs.
All machine integers (u64) are embedded as Nat; the points where the source
narrows or checks overflow are modelled explicitly.  Helper functions of the
repository that are not under src/ (proportional, check_min_amount,
on_lp_burn, the address checks and the exchange-rate conversion) are
modelled from the spec, as marked on each definition.
-/

namespace RemoveLiq

/-- Error outcomes of the redemption call.  The names follow the spec's
taxonomy (section 7): the source's ProgramError::InsufficientFunds is
insufficientFunds, the source's ProgramError::InvalidArgument on the
non-owner non-delegate branch is the taxonomy's unauthorized, and a Rust
panic (unwrap or expect in the source) is modelled by the distinguished
constructor panic, which is not a member of the documented taxonomy. -/
inductive Err where
  | configMismatch
  | insufficientFunds
  | unauthorized
  | arithmeticOverflow
  | divideByZero
  | underflow
  | slippageExceeded
  | transferFailure
  | conversionError
  | panic
  deriving DecidableEq, Repr

/-- The burn-source SPL token account, as the fields read by the source:
owner, balance, optional delegate and delegated allowance.  Pubkeys are
embedded as Nat. -/
structure TokenAcc where
  owner : Nat
  amount : Nat
  delegate : Option Nat
  delegated_amount : Nat
  deriving DecidableEq, Repr

/-- All account data and collaborator behaviour one redemption call reads.
Fields mirror the accounts of the RemoveLiquidity context plus the fields
of State / LiqPool the instruction touches.  The external collaborators
(exchange-rate conversion, the two transfers and the burn) are parameters:
convert is the calc_lamports_from_msol_amount collaborator (none models its
failure), and the three Bool fields say whether the corresponding CPI
succeeds. -/
structure Env where
  lpMintKey : Nat
  lpMintSupply : Nat
  burnFrom : TokenAcc
  burnFromAuthority : Nat
  solLegLamports : Nat
  msolLegKey : Nat
  msolLegAmount : Nat
  msolLegAuthorityKey : Nat
  cfgLpMint : Nat
  cfgMsolLeg : Nat
  cfgMsolLegAuthority : Nat
  rentExemptForTokenAcc : Nat
  minWithdraw : Nat
  lpSupply : Nat
  convert : Nat → Option Nat
  solTransferOk : Bool
  msolTransferOk : Bool
  burnOk : Bool

/-- A settlement action attempted by the instruction, in program order. -/
inductive Event where
  | transferSol (amount : Nat)
  | transferMsol (amount : Nat)
  | burnLp (amount : Nat)
  deriving DecidableEq, Repr

/-- Result data of a successful call: the two payouts and the committed
tracked supply. -/
structure Settled where
  solOut : Nat
  msolOut : Nat
  newLpSupply : Nat
  deriving DecidableEq, Repr

/-- One past the largest u64 value: the narrowing bound of the
embedding. -/
def u64Limit : Nat := 2 ^ 64

/-- Rust u64::checked_sub on the Nat embedding: none on underflow. -/
def checkedSub (a b : Nat) : Option Nat :=
  if a < b then none else some (a - b)

/-- Rust u64::checked_add on the Nat embedding: none when the sum does
not fit u64. -/
def checkedAddU64 (a b : Nat) : Option Nat :=
  if a + b < u64Limit then some (a + b) else none

/-- Rust Option::unwrap / Option::expect on the Nat embedding: a missing
value aborts the call with a panic, not with a taxonomy error. -/
def unwrapOption (o : Option Nat) : Except Err Nat :=
  match o with
  | some v => .ok v
  | none => .error .panic

deriving instance DecidableEq for Except

/-- Modelled from the spec: proportional (calc.rs is not under src/).
payout = floor(amount * legReserve / totalSupply) in a widened
intermediate; DivideByZero when totalSupply = 0; ArithmeticOverflow when
the result does not fit u64. -/
def proportional (amount legReserve totalSupply : Nat) : Except Err Nat :=
  if totalSupply = 0 then .error .divideByZero
  else
    let q := amount * legReserve / totalSupply
    if q < u64Limit then .ok q else .error .arithmeticOverflow

/-- Modelled from the spec: check_min_amount (checks.rs is not under src/).
Fails SlippageExceeded exactly when the amount is below the minimum. -/
def check_min_amount (amount minAmount : Nat) : Except Err Unit :=
  if amount < minAmount then .error .slippageExceeded else .ok ()

/-- Modelled from the spec: LiqPool::on_lp_burn (state is not under src/).
tracked = tracked.checkedSub(amount), Underflow when amount > tracked. -/
def on_lp_burn (tracked amount : Nat) : Except Err Nat :=
  if tracked < amount then .error .underflow else .ok (tracked - amount)

/-- Modelled from the spec: LiqPool::check_lp_mint (state is not under
src/).  Address mismatch is ConfigMismatch. -/
def check_lp_mint (suppliedKey cfgLpMint : Nat) : Except Err Unit :=
  if suppliedKey = cfgLpMint then .ok () else .error .configMismatch

/-- Modelled from the spec: LiqPool::check_liq_pool_msol_leg (state is not
under src/). -/
def check_liq_pool_msol_leg (suppliedKey cfgMsolLeg : Nat) : Except Err Unit :=
  if suppliedKey = cfgMsolLeg then .ok () else .error .configMismatch

/-- Modelled from the spec: State::check_liq_pool_msol_leg_authority
(state is not under src/). -/
def check_liq_pool_msol_leg_authority (suppliedKey cfgAuthority : Nat) :
    Except Err Unit :=
  if suppliedKey = cfgAuthority then .ok () else .error .configMismatch

/-- RemoveLiquidity::check_burn_from (source lines 42-76): owner branch
first; otherwise the registered-delegate branch; otherwise
InvalidArgument (the taxonomy's unauthorized).  Pure function of the
account data, mutating nothing, exactly as the source takes &self. -/
def check_burn_from (burnFrom : TokenAcc) (authority : Nat) (tokens : Nat) :
    Except Err Unit :=
  if authority = burnFrom.owner then
    if burnFrom.amount < tokens then .error .insufficientFunds else .ok ()
  else if burnFrom.delegate = some authority then
    if burnFrom.delegated_amount < tokens then .error .insufficientFunds
    else .ok ()
  else .error .unauthorized

/-- The supply reconciliation of source lines 91-97: when the real mint
supply exceeds the tracked lp_supply only a warning is logged and the
tracked value is kept; otherwise the tracked value is set to the real
supply. -/
def reconcile (tracked actual : Nat) : Nat :=
  if actual > tracked then tracked else actual

/-- The validation stage of process (source lines 80-88), in source
order. -/
def validateStage (env : Env) (tokens : Nat) : Except Err Unit := do
  check_lp_mint env.lpMintKey env.cfgLpMint
  check_burn_from env.burnFrom env.burnFromAuthority tokens
  check_liq_pool_msol_leg env.msolLegKey env.cfgMsolLeg
  check_liq_pool_msol_leg_authority env.msolLegAuthorityKey env.cfgMsolLegAuthority

/-- Validation, reconciliation and the two proportional computations
(source lines 80-113): returns (sol_out_amount, msol_out_amount, the
reconciled supply used as denominator for both).  The checked_sub +
unwrap on the sol leg balance is a panic when the balance is below the
reserved floor. -/
def preGuard (env : Env) (tokens : Nat) : Except Err (Nat × Nat × Nat) := do
  validateStage env tokens
  let supply := reconcile env.lpSupply env.lpMintSupply
  let solLegAvail ← unwrapOption
    (checkedSub env.solLegLamports env.rentExemptForTokenAcc)
  let solOut ← proportional tokens solLegAvail supply
  let msolOut ← proportional tokens env.msolLegAmount supply
  Except.ok (solOut, msolOut, supply)

/-- preGuard followed by the minimum-output guard (source lines 115-125):
the conversion collaborator's failure is unwrapped by expect (a panic),
the sum is checked_add + expect (a panic on u64 overflow), then
check_min_amount runs against state.min_withdraw. -/
def stagePre (env : Env) (tokens : Nat) : Except Err (Nat × Nat × Nat) := do
  let r ← preGuard env tokens
  let conv ← unwrapOption (env.convert r.2.1)
  let total ← unwrapOption (checkedAddU64 r.1 conv)
  check_min_amount total env.minWithdraw
  Except.ok r

/-- Step 3 of settlement (source lines 170-181): the burn CPI on the
requested amount, then on_lp_burn commits the new tracked supply. -/
def settleBurn (env : Env) (tokens solOut msolOut supply : Nat)
    (trace : List Event) : List Event × Except Err Settled :=
  if env.burnOk then
    match on_lp_burn supply tokens with
    | .ok newSupply =>
        (trace ++ [Event.burnLp tokens], .ok ⟨solOut, msolOut, newSupply⟩)
    | .error e => (trace ++ [Event.burnLp tokens], .error e)
  else (trace ++ [Event.burnLp tokens], .error .transferFailure)

/-- Step 2 of settlement (source lines 151-168): the mSOL-leg transfer,
attempted only when its payout is positive. -/
def settleMsol (env : Env) (tokens solOut msolOut supply : Nat)
    (trace : List Event) : List Event × Except Err Settled :=
  if 0 < msolOut then
    if env.msolTransferOk then
      settleBurn env tokens solOut msolOut supply
        (trace ++ [Event.transferMsol msolOut])
    else (trace ++ [Event.transferMsol msolOut], .error .transferFailure)
  else settleBurn env tokens solOut msolOut supply trace

/-- The settlement sequence of source lines 132-181: SOL transfer when
its payout is positive, then the mSOL transfer, then the burn and supply
commit.  The trace lists the attempted actions in order; a failing CPI
aborts with its event as the last attempted action. -/
def settle (env : Env) (tokens solOut msolOut supply : Nat) :
    List Event × Except Err Settled :=
  if 0 < solOut then
    if env.solTransferOk then
      settleMsol env tokens solOut msolOut supply [Event.transferSol solOut]
    else ([Event.transferSol solOut], .error .transferFailure)
  else settleMsol env tokens solOut msolOut supply []

/-- RemoveLiquidity::process (source lines 78-185): validate, reconcile,
compute, guard, then settle and commit.  The first component is the list
of settlement actions attempted; the second is the call's outcome.  Any
error before settlement leaves an empty trace, and in the host any error
at all rolls every in-memory mutation back, so an error outcome persists
nothing. -/
def process (env : Env) (tokens : Nat) : List Event × Except Err Settled :=
  match stagePre env tokens with
  | .error e => ([], .error e)
  | .ok (solOut, msolOut, supply) => settle env tokens solOut msolOut supply

/-- The spec's end-to-end example pool: tracked supply 1000 matching the
real supply, native-leg distributable 500 above a reserved floor of 100,
derivative leg 400, minimum withdrawal 10, 1:1 conversion rate, the
caller owning a holding of 1000 LP tokens, every collaborator
succeeding. -/
def envA : Env :=
  { lpMintKey := 1, lpMintSupply := 1000,
    burnFrom := ⟨7, 1000, none, 0⟩, burnFromAuthority := 7,
    solLegLamports := 600, msolLegKey := 2, msolLegAmount := 400,
    msolLegAuthorityKey := 3, cfgLpMint := 1, cfgMsolLeg := 2,
    cfgMsolLegAuthority := 3, rentExemptForTokenAcc := 100,
    minWithdraw := 10, lpSupply := 1000,
    convert := fun x => some x,
    solTransferOk := true, msolTransferOk := true, burnOk := true }

/-- A pool in the reconciliation warning branch: tracked supply 50 while
the real minted supply is 100 (someone minted outside the module), the
caller owning all 100 real tokens, native leg holding 10 distributable
lamports, empty derivative leg, no minimum. -/
def envU : Env :=
  { envA with
    lpSupply := 50, lpMintSupply := 100,
    burnFrom := ⟨7, 100, none, 0⟩,
    solLegLamports := 110, msolLegAmount := 0, minWithdraw := 0 }

end RemoveLiq

namespace RemoveLiq

/-- C3: proportional(amount, legReserve, totalSupply) is the floor of
amount * legReserve / totalSupply taken in the widened exact
intermediate; DivideByZero when totalSupply = 0, ArithmeticOverflow when
the quotient does not fit u64, and 0 whenever amount = 0 and
totalSupply > 0. -/
theorem proportional_spec (amount legReserve totalSupply : Nat) :
    (totalSupply = 0 →
      proportional amount legReserve totalSupply = .error .divideByZero) ∧
    (totalSupply ≠ 0 → amount * legReserve / totalSupply < u64Limit →
      proportional amount legReserve totalSupply =
        .ok (amount * legReserve / totalSupply)) ∧
    (totalSupply ≠ 0 → u64Limit ≤ amount * legReserve / totalSupply →
      proportional amount legReserve totalSupply =
        .error .arithmeticOverflow) ∧
    (amount = 0 → totalSupply ≠ 0 →
      proportional amount legReserve totalSupply = .ok 0) := by
  refine ⟨fun h0 => ?_, fun h0 hfit => ?_, fun h0 hbig => ?_, fun ha h0 => ?_⟩
  · simp [proportional, h0]
  · simp [proportional, h0, hfit]
  · simp [proportional, h0, Nat.not_lt.mpr hbig]
  · subst ha
    simp [proportional, h0, Nat.zero_div, u64Limit]

/-- Witness for proportional_spec at concrete inputs: a zero denominator,
a fitting quotient, an overflowing quotient and a zero amount. -/
theorem proportional_spec_witness :
    proportional 5 3 0 = .error .divideByZero ∧
    proportional 6 10 4 = .ok 15 ∧
    proportional (u64Limit - 1) (u64Limit - 1) 1 =
      .error .arithmeticOverflow ∧
    proportional 0 7 9 = .ok 0 :=
  ⟨(proportional_spec 5 3 0).1 rfl,
   (proportional_spec 6 10 4).2.1 (by decide) (by decide),
   (proportional_spec (u64Limit - 1) (u64Limit - 1) 1).2.2.1 (by decide)
     (by decide),
   (proportional_spec 0 7 9).2.2.2 rfl (by decide)⟩

/-- C4: for 0 < amount ≤ totalSupply and a u64 legReserve the payout
succeeds, never exceeds legReserve, never exceeds the fraction
amount/totalSupply of legReserve (payout * totalSupply ≤
amount * legReserve), and equals legReserve exactly at
amount = totalSupply. -/
theorem proportional_bounds (amount legReserve totalSupply : Nat)
    (hpos : 0 < amount) (hle : amount ≤ totalSupply)
    (hres : legReserve < u64Limit) :
    ∃ payout, proportional amount legReserve totalSupply = .ok payout ∧
      payout ≤ legReserve ∧
      payout * totalSupply ≤ amount * legReserve ∧
      (amount = totalSupply → payout = legReserve) := by
  have ht : totalSupply ≠ 0 := by omega
  have htpos : 0 < totalSupply := Nat.pos_of_ne_zero ht
  have hq : amount * legReserve / totalSupply ≤ legReserve := by
    calc amount * legReserve / totalSupply
        ≤ totalSupply * legReserve / totalSupply :=
          Nat.div_le_div_right (Nat.mul_le_mul_right _ hle)
      _ = legReserve := Nat.mul_div_cancel_left _ htpos
  refine ⟨amount * legReserve / totalSupply, ?_, hq, ?_, ?_⟩
  · simp [proportional, ht, lt_of_le_of_lt hq hres]
  · exact Nat.div_mul_le_self _ _
  · intro heq
    subst heq
    exact Nat.mul_div_cancel_left _ htpos

/-- Witness for proportional_bounds at the spec's example leg
(500 of 1000 for 100 tokens) and at the full-redemption boundary. -/
theorem proportional_bounds_witness :
    (∃ payout, proportional 100 500 1000 = .ok payout ∧
      payout ≤ 500 ∧ payout * 1000 ≤ 100 * 500 ∧ (100 = 1000 → payout = 500)) ∧
    (∃ payout, proportional 1000 500 1000 = .ok payout ∧
      payout ≤ 500 ∧ payout * 1000 ≤ 1000 * 500 ∧
      (1000 = 1000 → payout = 500)) :=
  ⟨proportional_bounds 100 500 1000 (by decide) (by decide) (by decide),
   proportional_bounds 1000 500 1000 (by decide) (by decide) (by decide)⟩

/-- C5: reconciliation never increases the tracked supply, keeps it when
the actual minted supply is larger, and adopts the actual supply
otherwise. -/
theorem reconcile_spec (tracked actual : Nat) :
    reconcile tracked actual ≤ tracked ∧
    (tracked < actual → reconcile tracked actual = tracked) ∧
    (actual ≤ tracked → reconcile tracked actual = actual) := by
  unfold reconcile
  refine ⟨?_, fun h => by simp [h], fun h => by simp [Nat.not_lt.mpr h]⟩
  split <;> omega

/-- Witness for reconcile_spec: the spec's two examples,
reconcile 100 90 = 90 and reconcile 100 110 = 100. -/
theorem reconcile_spec_witness :
    reconcile 100 90 = 90 ∧ reconcile 100 110 = 100 :=
  ⟨(reconcile_spec 100 90).2.2 (by decide),
   (reconcile_spec 100 110).2.1 (by decide)⟩

/-- Inversion of a monadic Except bind producing a success. -/
theorem exbind_ok {α β : Type} (e : Except Err α) (f : α → Except Err β)
    (b : β) :
    (e >>= f = Except.ok b) ↔ ∃ a, e = Except.ok a ∧ f a = Except.ok b := by
  cases e <;> simp [Bind.bind, Except.bind]

/-- Inversion of unwrapOption: success means the option carried the
value. -/
theorem unwrapOption_ok (o : Option Nat) (v : Nat) :
    unwrapOption o = .ok v ↔ o = some v := by
  cases o <;> simp [unwrapOption]

/-- Inversion of checkedSub: a value means no underflow and exact
subtraction. -/
theorem checkedSub_some (a b v : Nat) :
    checkedSub a b = some v ↔ b ≤ a ∧ v = a - b := by
  unfold checkedSub
  split <;> simp <;> omega

/-- Inversion of checkedAddU64: a value means the sum fits u64. -/
theorem checkedAddU64_some (a b v : Nat) :
    checkedAddU64 a b = some v ↔ a + b < u64Limit ∧ v = a + b := by
  unfold checkedAddU64
  split <;> simp_all
  omega

/-- Inversion of check_min_amount: success is exactly reaching the
minimum. -/
theorem check_min_amount_ok (amount minAmount : Nat) (u : Unit) :
    check_min_amount amount minAmount = .ok u ↔ minAmount ≤ amount := by
  unfold check_min_amount
  split <;> simp <;> omega

/-- Inversion of the three modelled address checks (they share one
shape): success is key equality. -/
theorem check_lp_mint_ok (a b : Nat) (u : Unit) :
    check_lp_mint a b = .ok u ↔ a = b := by
  unfold check_lp_mint
  split <;> simp_all

/-- Inversion of check_liq_pool_msol_leg: success is key equality. -/
theorem check_liq_pool_msol_leg_ok (a b : Nat) (u : Unit) :
    check_liq_pool_msol_leg a b = .ok u ↔ a = b := by
  unfold check_liq_pool_msol_leg
  split <;> simp_all

/-- Inversion of check_liq_pool_msol_leg_authority: success is key
equality. -/
theorem check_liq_pool_msol_leg_authority_ok (a b : Nat) (u : Unit) :
    check_liq_pool_msol_leg_authority a b = .ok u ↔ a = b := by
  unfold check_liq_pool_msol_leg_authority
  split <;> simp_all

/-- Inversion of the validation stage: success means all four address
and authorization checks succeeded. -/
theorem validateStage_inv (env : Env) (tokens : Nat)
    (h : validateStage env tokens = .ok ()) :
    env.lpMintKey = env.cfgLpMint ∧
    check_burn_from env.burnFrom env.burnFromAuthority tokens = .ok () ∧
    env.msolLegKey = env.cfgMsolLeg ∧
    env.msolLegAuthorityKey = env.cfgMsolLegAuthority := by
  unfold validateStage at h
  simp only [exbind_ok] at h
  obtain ⟨u1, h1, u2, h2, u3, h3, h4⟩ := h
  cases u2
  exact ⟨(check_lp_mint_ok _ _ _).mp h1, h2,
    (check_liq_pool_msol_leg_ok _ _ _).mp h3,
    (check_liq_pool_msol_leg_authority_ok _ _ _).mp h4⟩

/-- Inversion of the pre-guard stages: success determines that
validation passed, the native leg balance covered the reserved floor,
and both payouts came from proportional with the one reconciled supply
as denominator — the native leg reserve being the raw balance minus the
floor. -/
theorem preGuard_inv (env : Env) (tokens s m sup : Nat)
    (h : preGuard env tokens = .ok (s, m, sup)) :
    validateStage env tokens = .ok () ∧
    sup = reconcile env.lpSupply env.lpMintSupply ∧
    env.rentExemptForTokenAcc ≤ env.solLegLamports ∧
    proportional tokens (env.solLegLamports - env.rentExemptForTokenAcc)
      sup = .ok s ∧
    proportional tokens env.msolLegAmount sup = .ok m := by
  unfold preGuard at h
  simp only [exbind_ok, unwrapOption_ok, checkedSub_some] at h
  obtain ⟨u1, hv, v, ⟨hge, hveq⟩, s0, hp1, m0, hp2, hfin⟩ := h
  cases u1
  simp only [Except.ok.injEq, Prod.mk.injEq] at hfin
  obtain ⟨hs, hm, hsup⟩ := hfin
  subst hs; subst hm; subst hsup; subst hveq
  exact ⟨hv, rfl, hge, hp1, hp2⟩

/-- Inversion of the full pre-settlement pipeline: success additionally
means the conversion collaborator succeeded on the derivative payout,
the summed value fitted u64, and it reached the minimum withdrawal. -/
theorem stagePre_inv (env : Env) (tokens s m sup : Nat)
    (h : stagePre env tokens = .ok (s, m, sup)) :
    preGuard env tokens = .ok (s, m, sup) ∧
    ∃ c, env.convert m = some c ∧ s + c < u64Limit ∧
      env.minWithdraw ≤ s + c := by
  unfold stagePre at h
  simp only [exbind_ok, unwrapOption_ok, checkedAddU64_some] at h
  obtain ⟨⟨s0, m0, sup0⟩, hpg, c, hc, t, ⟨hfit, hteq⟩, u, hmin, hfin⟩ := h
  cases u
  simp only [Except.ok.injEq, Prod.mk.injEq] at hfin
  obtain ⟨hs, hm, hsup⟩ := hfin
  subst hs; subst hm; subst hsup; subst hteq
  exact ⟨hpg, c, hc, hfit, (check_min_amount_ok _ _ _).mp hmin⟩

/-- Closed form of the settlement sequence: the SOL transfer is
attempted first when its payout is positive, then the mSOL transfer when
its payout is positive, then the burn and the supply commit; a failing
step ends the trace at its own event with a typed error, and a zero
payout skips its transfer. -/
theorem settle_eq (env : Env) (tokens s m sup : Nat) :
    settle env tokens s m sup =
      if 0 < s ∧ env.solTransferOk = false then
        ([Event.transferSol s], Except.error Err.transferFailure)
      else if 0 < m ∧ env.msolTransferOk = false then
        ((if 0 < s then [Event.transferSol s] else []) ++
          [Event.transferMsol m], Except.error Err.transferFailure)
      else
        ((if 0 < s then [Event.transferSol s] else []) ++
          (if 0 < m then [Event.transferMsol m] else []) ++
          [Event.burnLp tokens],
         if env.burnOk = false then Except.error Err.transferFailure
         else if sup < tokens then Except.error Err.underflow
         else Except.ok ⟨s, m, sup - tokens⟩) := by
  unfold settle settleMsol settleBurn on_lp_burn
  rcases hso : env.solTransferOk <;> rcases hmo : env.msolTransferOk <;>
    rcases hbo : env.burnOk <;>
    by_cases h1 : 0 < s <;> by_cases h2 : 0 < m <;>
    by_cases h3 : sup < tokens <;>
    simp [h1, h2, h3]

/-- process on a successful pre-settlement pipeline is the settlement
sequence. -/
theorem process_of_stagePre_ok (env : Env) (tokens s m sup : Nat)
    (h : stagePre env tokens = .ok (s, m, sup)) :
    process env tokens = settle env tokens s m sup := by
  unfold process
  rw [h]

/-- process on a failed pre-settlement pipeline attempts no settlement
action and returns the failure. -/
theorem process_of_stagePre_err (env : Env) (tokens : Nat) (e : Err)
    (h : stagePre env tokens = .error e) :
    process env tokens = ([], .error e) := by
  unfold process
  rw [h]

/-- When the authority is the owner, authorization success bounds the
requested amount by the holding balance. -/
theorem check_burn_from_ok_owner (bf : TokenAcc) (authority tokens : Nat)
    (hown : authority = bf.owner)
    (h : check_burn_from bf authority tokens = .ok ()) :
    tokens ≤ bf.amount := by
  unfold check_burn_from at h
  rw [if_pos hown] at h
  by_cases hlt : bf.amount < tokens
  · rw [if_pos hlt] at h
    cases h
  · omega

/-- C8: the burn-source authorization: the owner branch is checked first
against the balance, then the registered-delegate branch against the
delegated allowance, and any other authority is rejected with the
unauthorized error; failures of the balance checks are
InsufficientFunds.  The function reads the account and mutates
nothing. -/
theorem check_burn_from_spec (bf : TokenAcc) (authority tokens : Nat) :
    (authority = bf.owner → tokens ≤ bf.amount →
      check_burn_from bf authority tokens = .ok ()) ∧
    (authority = bf.owner → bf.amount < tokens →
      check_burn_from bf authority tokens = .error .insufficientFunds) ∧
    (authority ≠ bf.owner → bf.delegate = some authority →
      tokens ≤ bf.delegated_amount →
      check_burn_from bf authority tokens = .ok ()) ∧
    (authority ≠ bf.owner → bf.delegate = some authority →
      bf.delegated_amount < tokens →
      check_burn_from bf authority tokens = .error .insufficientFunds) ∧
    (authority ≠ bf.owner → bf.delegate ≠ some authority →
      check_burn_from bf authority tokens = .error .unauthorized) := by
  unfold check_burn_from
  refine ⟨fun h1 h2 => ?_, fun h1 h2 => ?_, fun h1 h2 h3 => ?_,
    fun h1 h2 h3 => ?_, fun h1 h2 => ?_⟩
  · simp [h1, Nat.not_lt.mpr h2]
  · simp [h1, h2]
  · simp [h1, h2, Nat.not_lt.mpr h3]
  · simp [h1, h2, h3]
  · simp [h1, h2]

/-- Witness for check_burn_from_spec: the spec's four examples — owner
with exact balance succeeds, owner one short fails InsufficientFunds, a
stranger is unauthorized, and a delegate over its allowance fails
InsufficientFunds. -/
theorem check_burn_from_spec_witness :
    check_burn_from ⟨7, 50, none, 0⟩ 7 50 = .ok () ∧
    check_burn_from ⟨7, 49, none, 0⟩ 7 50 = .error .insufficientFunds ∧
    check_burn_from ⟨7, 50, none, 0⟩ 8 50 = .error .unauthorized ∧
    check_burn_from ⟨7, 100, some 9, 30⟩ 9 31 = .error .insufficientFunds :=
  ⟨(check_burn_from_spec ⟨7, 50, none, 0⟩ 7 50).1 rfl (by decide),
   (check_burn_from_spec ⟨7, 49, none, 0⟩ 7 50).2.1 rfl (by decide),
   (check_burn_from_spec ⟨7, 50, none, 0⟩ 8 50).2.2.2.2 (by decide)
     (by decide),
   (check_burn_from_spec ⟨7, 100, some 9, 30⟩ 9 31).2.2.2.1 (by decide)
     (by decide) (by decide)⟩

/-- C1: for every call that reaches settlement, the attempted actions
are exactly: the SOL transfer when its payout is positive, then the
mSOL transfer when its payout is positive, then the burn — each
truncated at the first failing transfer, so the burn is never attempted
when a positive-payout transfer fails, and a zero payout skips its
transfer. -/
theorem settlement_order (env : Env) (tokens s m sup : Nat)
    (h : stagePre env tokens = .ok (s, m, sup)) :
    (process env tokens).1 =
      (if 0 < s ∧ env.solTransferOk = false then [Event.transferSol s]
       else if 0 < m ∧ env.msolTransferOk = false then
         (if 0 < s then [Event.transferSol s] else []) ++
           [Event.transferMsol m]
       else
         (if 0 < s then [Event.transferSol s] else []) ++
           (if 0 < m then [Event.transferMsol m] else []) ++
           [Event.burnLp tokens]) ∧
    (((0 < s ∧ env.solTransferOk = false) ∨
      (0 < m ∧ env.msolTransferOk = false)) →
      Event.burnLp tokens ∉ (process env tokens).1) := by
  rw [process_of_stagePre_ok env tokens s m sup h, settle_eq]
  constructor
  · by_cases h1 : 0 < s ∧ env.solTransferOk = false
    · simp [h1]
    · by_cases h2 : 0 < m ∧ env.msolTransferOk = false
      · simp [h1, h2]
      · simp [h1, h2]
  · intro hor
    by_cases h1 : 0 < s ∧ env.solTransferOk = false
    · simp [h1]
    · by_cases h2 : 0 < m ∧ env.msolTransferOk = false
      · simp [h1, h2]
      · rcases hor with h | h
        · exact absurd h h1
        · exact absurd h h2

/-- Witness for settlement_order at the spec's example: payouts 50 and
40 with all collaborators succeeding, so the trace is the SOL transfer,
the mSOL transfer, then the burn. -/
theorem settlement_order_witness :
    (process envA 100).1 =
      [Event.transferSol 50, Event.transferMsol 40, Event.burnLp 100] := by
  rw [(settlement_order envA 100 50 40 1000 (by decide)).1]
  decide

/-- C2: whenever the computation stages succeed, both payouts come from
proportional with the single reconciled supply snapshot as denominator,
and the native leg reserve used is the raw lamport balance minus the
reserved floor (which the balance must cover), never the raw
balance. -/
theorem payouts_one_snapshot (env : Env) (tokens s m sup : Nat)
    (h : stagePre env tokens = .ok (s, m, sup)) :
    sup = reconcile env.lpSupply env.lpMintSupply ∧
    env.rentExemptForTokenAcc ≤ env.solLegLamports ∧
    proportional tokens
      (env.solLegLamports - env.rentExemptForTokenAcc) sup = .ok s ∧
    proportional tokens env.msolLegAmount sup = .ok m := by
  obtain ⟨hpg, -⟩ := stagePre_inv env tokens s m sup h
  obtain ⟨-, h2, h3, h4, h5⟩ := preGuard_inv env tokens s m sup hpg
  exact ⟨h2, h3, h4, h5⟩

/-- Witness for payouts_one_snapshot at the spec's example pool. -/
theorem payouts_one_snapshot_witness :
    (1000 : Nat) = reconcile envA.lpSupply envA.lpMintSupply ∧
    envA.rentExemptForTokenAcc ≤ envA.solLegLamports ∧
    proportional 100
      (envA.solLegLamports - envA.rentExemptForTokenAcc) 1000 = .ok 50 ∧
    proportional 100 envA.msolLegAmount 1000 = .ok 40 :=
  payouts_one_snapshot envA 100 50 40 1000 (by decide)

/-- C6 (amended): on success the committed tracked supply is the
reconciled snapshot minus the burned amount; and the Underflow commit
branch is unreachable for every call that passes the earlier stages
provided reconciliation took its clamping branch (actual minted supply
at most the tracked supply) and the burn authority is the owner of a
holding whose balance is bounded by the actual minted supply.  (In the
warning branch of reconciliation the Underflow branch is reachable: see
the counterexample.) -/
theorem supply_commit (env : Env) (tokens : Nat) :
    (∀ tr st, process env tokens = (tr, .ok st) →
      st.newLpSupply = reconcile env.lpSupply env.lpMintSupply - tokens) ∧
    (∀ s m sup, stagePre env tokens = .ok (s, m, sup) →
      env.lpMintSupply ≤ env.lpSupply →
      env.burnFromAuthority = env.burnFrom.owner →
      env.burnFrom.amount ≤ env.lpMintSupply →
      ∀ tr, process env tokens ≠ (tr, .error .underflow)) := by
  constructor
  · intro tr st hok
    obtain ⟨so, mo, ns⟩ := st
    cases hsp : stagePre env tokens with
    | error e =>
      rw [process_of_stagePre_err env tokens e hsp] at hok
      simp at hok
    | ok r =>
      obtain ⟨s, m, sup⟩ := r
      obtain ⟨hpg, -⟩ := stagePre_inv env tokens s m sup hsp
      obtain ⟨-, hsup, -, -, -⟩ := preGuard_inv env tokens s m sup hpg
      rw [process_of_stagePre_ok env tokens s m sup hsp, settle_eq] at hok
      by_cases h1 : 0 < s ∧ env.solTransferOk = false
      · rw [if_pos h1] at hok
        simp at hok
      · rw [if_neg h1] at hok
        by_cases h2 : 0 < m ∧ env.msolTransferOk = false
        · rw [if_pos h2] at hok
          simp at hok
        · rw [if_neg h2] at hok
          have hsnd := congrArg Prod.snd hok
          rcases hb : env.burnOk with _ | _ <;> rw [hb] at hsnd
          · simp at hsnd
          · by_cases h3 : sup < tokens
            · simp [h3] at hsnd
            · simp only [h3, Bool.true_eq_false, if_false,
                Except.ok.injEq, Settled.mk.injEq] at hsnd
              show ns = reconcile env.lpSupply env.lpMintSupply - tokens
              rw [← hsnd.2.2, ← hsup]
  · intro s m sup hsp hrec hown hbal tr heq
    obtain ⟨hpg, -⟩ := stagePre_inv env tokens s m sup hsp
    obtain ⟨hv, hsup, -, -, -⟩ := preGuard_inv env tokens s m sup hpg
    obtain ⟨-, hbf, -, -⟩ := validateStage_inv env tokens hv
    have htok : tokens ≤ env.burnFrom.amount :=
      check_burn_from_ok_owner _ _ _ hown hbf
    have hts : ¬sup < tokens := by
      unfold reconcile at hsup
      rw [if_neg (by omega)] at hsup
      omega
    rw [process_of_stagePre_ok env tokens s m sup hsp, settle_eq] at heq
    by_cases h1 : 0 < s ∧ env.solTransferOk = false
    · rw [if_pos h1] at heq
      simp at heq
    · rw [if_neg h1] at heq
      by_cases h2 : 0 < m ∧ env.msolTransferOk = false
      · rw [if_pos h2] at heq
        simp at heq
      · rw [if_neg h2] at heq
        rcases hb : env.burnOk with _ | _ <;> rw [hb] at heq <;>
          simp [hts] at heq

/-- Witness for supply_commit at the spec's example: redeeming 100 LP
tokens from a pool with reconciled supply 1000 commits tracked supply
900, and the commit cannot underflow there. -/
theorem supply_commit_witness :
    ((900 : Nat) = reconcile envA.lpSupply envA.lpMintSupply - 100) ∧
    process envA 100 ≠
      ([Event.transferSol 50, Event.transferMsol 40, Event.burnLp 100],
        .error .underflow) :=
  ⟨(supply_commit envA 100).1
      [Event.transferSol 50, Event.transferMsol 40, Event.burnLp 100]
      ⟨50, 40, 900⟩ (by decide),
   (supply_commit envA 100).2 50 40 1000 (by decide) (by decide)
      (by decide) (by decide) _⟩

/-- Counterexample to C6 as stated: in envU the tracked supply is 50
while the real minted supply is 100, so reconciliation keeps 50 with
only a warning; redeeming 80 tokens passes validation (the holding
holds 100), reconciliation, both computations and the guard — stagePre
succeeds — yet the commit stage fails with Underflow, so the Underflow
branch is reachable for a call that passes every earlier stage. -/
theorem underflow_reachable :
    stagePre envU 80 = .ok (16, 0, 50) ∧
    process envU 80 =
      ([Event.transferSol 16, Event.burnLp 80], .error .underflow) := by
  exact ⟨by decide, by decide⟩

/-- C7: with the pre-guard stages succeeded and the conversion
collaborator returning c for the derivative payout, the call fails
SlippageExceeded exactly when the combined value is below the pool
minimum, and on that failure no settlement action has been attempted
(the trace is empty) and no state is committed (the outcome is the bare
error). -/
theorem slippage_guard (env : Env) (tokens s m sup c : Nat)
    (hpre : preGuard env tokens = .ok (s, m, sup))
    (hc : env.convert m = some c) (hfit : s + c < u64Limit) :
    s + c < env.minWithdraw ↔
      process env tokens = ([], .error .slippageExceeded) := by
  constructor
  · intro hmin
    have hsp : stagePre env tokens = .error .slippageExceeded := by
      simp [stagePre, hpre, hc, hfit, hmin, bind, Except.bind,
        unwrapOption, checkedAddU64, check_min_amount]
    exact process_of_stagePre_err env tokens _ hsp
  · intro hproc
    by_contra hmin
    have hsp : stagePre env tokens = .ok (s, m, sup) := by
      simp [stagePre, hpre, hc, hfit, hmin, bind, Except.bind,
        unwrapOption, checkedAddU64, check_min_amount]
    rw [process_of_stagePre_ok env tokens s m sup hsp, settle_eq] at hproc
    by_cases h1 : 0 < s ∧ env.solTransferOk = false
    · rw [if_pos h1] at hproc
      simp at hproc
    · rw [if_neg h1] at hproc
      by_cases h2 : 0 < m ∧ env.msolTransferOk = false
      · rw [if_pos h2] at hproc
        simp at hproc
      · rw [if_neg h2] at hproc
        simp at hproc

/-- Witness for slippage_guard: the spec's example with the minimum
raised to 1000 — the combined value 90 is below it, so the call fails
SlippageExceeded with an empty trace. -/
theorem slippage_guard_witness :
    process { envA with minWithdraw := 1000 } 100 =
      ([], .error .slippageExceeded) :=
  (slippage_guard { envA with minWithdraw := 1000 } 100 50 40 1000 40
    (by decide) (by decide) (by decide)).mp (by decide)

/-- C9 (amended): when the exchange-rate conversion collaborator fails
on the derivative payout, the call aborts through the panic of the
expect in the source, not through the typed ConversionError of the
taxonomy; nothing is settled or committed. -/
theorem conversion_failure_panics (env : Env) (tokens s m sup : Nat)
    (hpre : preGuard env tokens = .ok (s, m, sup))
    (hc : env.convert m = none) :
    process env tokens = ([], .error .panic) ∧
    process env tokens ≠ ([], .error .conversionError) := by
  have hsp : stagePre env tokens = .error .panic := by
    simp [stagePre, hpre, hc, bind, Except.bind, unwrapOption]
  have hp := process_of_stagePre_err env tokens _ hsp
  refine ⟨hp, ?_⟩
  rw [hp]
  simp

/-- Witness for conversion_failure_panics: the spec's example pool with
a failing conversion collaborator aborts with the panic. -/
theorem conversion_failure_panics_witness :
    process { envA with convert := fun _ => none } 100 =
      ([], .error .panic) :=
  (conversion_failure_panics { envA with convert := fun _ => none } 100
    50 40 1000 (by decide) (by decide)).1

/-- Counterexample to C9 as stated: in the spec's example pool with a
conversion collaborator that fails, the call's outcome is the untyped
panic abort, not the typed ConversionError the claim requires. -/
theorem conversion_not_typed :
    process { envA with convert := fun _ => none } 100 =
      ([], .error .panic) ∧
    (process { envA with convert := fun _ => none } 100).2 ≠
      .error .conversionError := by
  exact ⟨by decide, by decide⟩

/-- C10: a call that passes validation but whose native-leg custody
balance is strictly below the reserved floor aborts through the panic
of the unwrap on the checked subtraction; the outcome is the untyped
panic, never one of the taxonomy's typed errors. -/
theorem below_floor_panics (env : Env) (tokens : Nat)
    (hv : validateStage env tokens = .ok ())
    (hlow : env.solLegLamports < env.rentExemptForTokenAcc) :
    process env tokens = ([], .error .panic) ∧
    ∀ e, process env tokens = ([], .error e) → e = .panic := by
  have hsp : stagePre env tokens = .error .panic := by
    simp [stagePre, preGuard, hv, hlow, bind, Except.bind, unwrapOption,
      checkedSub]
  have hp := process_of_stagePre_err env tokens _ hsp
  refine ⟨hp, fun e he => ?_⟩
  rw [hp] at he
  simpa using he.symm

/-- Witness for below_floor_panics: the spec's example pool with the
native leg balance 99 below the floor 100 panics. -/
theorem below_floor_panics_witness :
    process { envA with solLegLamports := 99 } 100 =
      ([], .error .panic) :=
  (below_floor_panics { envA with solLegLamports := 99 } 100
    (by decide) (by decide)).1

end RemoveLiq
